import Mathlib

/-!
Verification of the locki_id_addon session lifecycle (src/__init__.py).

The add-on keeps a single credential record (the `LockiIdProfile` singleton)
that is persisted to a JSON file, and exposes Blender operators for login,
validation, logout, nonce refresh and NFT refresh.  We embed the profile
record, its persisted file, and each operator's `execute` method as pure
Lean functions; the results of the remote HTTP calls (identity service,
ledger service) are passed in as parameters, since they are external inputs.

The helper modules `profiles`, `communication` and `mvx_requests` are not
part of the sources; where an operator depends on them the corresponding
definition is modelled from the spec and marked as such in its doc comment.
-/

/-- Value held by the profile's `nonce` field.  The persisted JSON field can
hold either an integer (what the nonce-refresh operator writes from the
ledger result) or a string (the login operator passes the literal `"0"`). -/
inductive NonceVal where
  | intVal (n : Nat)
  | strVal (s : String)
deriving DecidableEq

/-- `true` exactly when the value is an integer (all integers this model can
store are non-negative, matching the ledger's nonce counter). -/
def NonceVal.isNonnegInt : NonceVal → Bool
  | NonceVal.intVal _ => true
  | NonceVal.strVal _ => false

/-- The `LockiIdProfile` singleton record: address, API key, bearer token,
expiry string, nonce and NFT URL list. -/
structure Profile where
  address : String
  apiKey : String
  token : String
  expires : String
  nonce : NonceVal
  nfts : List String
deriving DecidableEq

/-- The all-empty profile: empty strings, default nonce 0, no NFTs. -/
def emptyProfile : Profile :=
  { address := "", apiKey := "", token := "", expires := "",
    nonce := NonceVal.intVal 0, nfts := [] }

/-- The in-memory singleton together with the persisted JSON file. -/
structure Store where
  profile : Profile
  file : Profile
deriving DecidableEq

/-- `LockiIdProfile.save_json`: serialize the in-memory profile to the file. -/
def Store.save_json (s : Store) : Store := { s with file := s.profile }

/-- `LockiIdProfile.read_json`: reload the in-memory profile from the file. -/
def Store.read_json (s : Store) : Store := { s with profile := s.file }

/-- Result of `communication.locki_id_server_authenticate`: a structured
success/failure value carrying a token or an error message (spec section 4.1:
the client returns a structured result and never raises). -/
structure AuthResult where
  success : Bool
  token : String
  expires : String
  error_message : String
deriving DecidableEq

/-- Result of `communication.locki_id_server_validate`: an updated expiry on
success, or an error message. -/
structure ValidateResult where
  expires : String
  err : Option String
deriving DecidableEq

/-- Host operator return code; `finished` stands for the Blender return set
with the single element FINISHED. -/
inductive RetCode where
  | finished
  | cancelled
deriving DecidableEq

/-- Modelled from the spec: `profiles.save_as_active_profile` (the Session
Store operation `setActive`, spec section 4.3) is not under src/.  It
populates the singleton fields from the authentication result and the given
address, API key, extra data and nonce, then saves. -/
def profiles.save_as_active_profile (auth : AuthResult) (address apiKey : String)
    (nfts : List String) (nonce : NonceVal) (s : Store) : Store :=
  Store.save_json
    { s with profile :=
      { address := address, apiKey := apiKey, token := auth.token,
        expires := auth.expires, nonce := nonce, nfts := nfts } }

/-- Modelled from the spec: `profiles.logout` (the Session Store operation
`clear`, spec section 4.3) is not under src/.  It resets all fields to
empty/default and saves; it performs no network call. -/
def profiles.logout (s : Store) : Store :=
  Store.save_json { s with profile := emptyProfile }

/-- Outcome of `LockiIdLogin.execute`: the resulting store, the preference
messages (reset on entry by `addon_prefs`), whether the server-side and the
local logout were invoked, whether `read_json` ran, and the return code. -/
structure LoginOutcome where
  store : Store
  okMessage : String
  errorMessage : String
  serverLogoutCalled : Bool
  localLogoutCalled : Bool
  readJsonCalled : Bool
  ret : RetCode
deriving DecidableEq

/-- `LockiIdLogin.execute`: on success, save the new active profile (note the
nonce argument is the string literal `"0"`); on failure, record the error
message and, when a stale address is present, clear the profile locally via
`profiles.logout`.  No branch calls `communication.locki_id_server_logout`.
Both branches reload via `read_json` and return FINISHED. -/
def LockiIdLogin.execute (auth : AuthResult) (prefsAddress prefsApiKey : String)
    (s : Store) : LoginOutcome :=
  if auth.success = true then
    let s1 := profiles.save_as_active_profile auth prefsAddress prefsApiKey []
      (NonceVal.strVal "0") s
    { store := Store.read_json s1, okMessage := "Logged in", errorMessage := "",
      serverLogoutCalled := false, localLogoutCalled := false,
      readJsonCalled := true, ret := RetCode.finished }
  else
    let s1 := if s.profile.address = "" then s else profiles.logout s
    { store := Store.read_json s1, okMessage := "",
      errorMessage := auth.error_message,
      serverLogoutCalled := false,
      localLogoutCalled := s.profile.address != "",
      readJsonCalled := true, ret := RetCode.finished }

/-- `validate_token`: ask the identity service to validate the stored token
(the call's result is the `vres` parameter).  On error, return the message
and leave everything untouched; on success, set the profile's expiry and
save, returning `none`. -/
def validate_token (vres : ValidateResult) (s : Store) : Option String × Store :=
  match vres.err with
  | some e => (some e, s)
  | none =>
    (none, Store.save_json { s with profile := { s.profile with expires := vres.expires } })

/-- Outcome of `LockiIdValidate.execute`. -/
structure ValidateOutcome where
  store : Store
  okMessage : String
  errorMessage : String
  readJsonCalled : Bool
  ret : RetCode
deriving DecidableEq

/-- `LockiIdValidate.execute`: run `validate_token`, set the ok or error
message, reload via `read_json`, return FINISHED. -/
def LockiIdValidate.execute (vres : ValidateResult) (s : Store) : ValidateOutcome :=
  let r := validate_token vres s
  match r.1 with
  | none =>
    { store := Store.read_json r.2, okMessage := "Authentication token is valid",
      errorMessage := "", readJsonCalled := true, ret := RetCode.finished }
  | some e =>
    { store := Store.read_json r.2, okMessage := "",
      errorMessage := e ++ "; you probably want to log out and log in again",
      readJsonCalled := true, ret := RetCode.finished }

/-- Outcome of `LockiIdLogout.execute`. -/
structure LogoutOutcome where
  store : Store
  okMessage : String
  serverLogoutCalled : Bool
  readJsonCalled : Bool
  ret : RetCode
deriving DecidableEq

/-- `LockiIdLogout.execute`: call the server-side logout (modelled from the
spec, section 4.1: `communication.locki_id_server_logout` is best-effort,
returns a structured result and never raises; its outcome is the ignored
`serverOk` parameter), then clear the local profile, reload, and return
FINISHED. -/
def LockiIdLogout.execute (_serverOk : Bool) (s : Store) : LogoutOutcome :=
  let s1 := profiles.logout s
  { store := Store.read_json s1, okMessage := "You have been logged out",
    serverLogoutCalled := true, readJsonCalled := true, ret := RetCode.finished }

/-- Outcome of `UTILS_OT_get_nonce.execute`.  `raised` holds the Python
exception message when the method aborts with an exception, in which case
`ret` is `none` (no return value reaches the host). -/
structure NonceOutcome where
  store : Store
  prefsNonce : Option Nat
  shownMessage : Option String
  raised : Option String
  readJsonCalled : Bool
  ret : Option RetCode
deriving DecidableEq

/-- `UTILS_OT_get_nonce.execute`: the ledger lookup result is the `result`
parameter (`some n` for a successful `mvx_requests.check_address_nonce`,
`none` for a falsy failure result, modelled from the spec, section 4.2).
On success the nonce is stored and saved, the message is shown, and the
profile is reloaded.  On failure the `if result:` block is skipped but the
unguarded subscript in the `show_message` f-string still evaluates, raising
a TypeError before `read_json` is reached. -/
def UTILS_OT_get_nonce.execute (result : Option Nat) (s : Store) : NonceOutcome :=
  match result with
  | some n =>
    let s1 := Store.save_json { s with profile := { s.profile with nonce := NonceVal.intVal n } }
    { store := Store.read_json s1, prefsNonce := some n,
      shownMessage := some ("Nonce: " ++ toString n), raised := none,
      readJsonCalled := true, ret := some RetCode.finished }
  | none =>
    { store := s, prefsNonce := none, shownMessage := none,
      raised := some "TypeError: NoneType object is not subscriptable",
      readJsonCalled := false, ret := none }

/-- One NFT record from the ledger; a malformed record carries no display
URL. -/
structure NftRecord where
  identifier : String
  url : Option String
deriving DecidableEq

/-- Modelled from the spec: `mvx_requests.get_urllist_from_list` (the Ledger
Client operation `extractDisplayUrls`, spec section 4.2) is not under src/.
It is a pure, order-preserving flattening of one display URL per record that
skips malformed records. -/
def get_urllist_from_list (records : List NftRecord) : List String :=
  records.filterMap (fun r => r.url)

/-- Modelled from the spec: `mvx_requests.transform_nft_urls_in_menu` is not
under src/.  It turns each stored URL into one enum menu item, one item per
URL, preserving order. -/
def transform_nft_urls_in_menu (urls : List String) : List (String × String) :=
  urls.map (fun u => (u, u))

/-- Outcome of `UTILS_OT_get_nfts.execute`. -/
structure NftsOutcome where
  store : Store
  shownMessage : String
  okMessage : String
  readJsonCalled : Bool
  ret : RetCode
deriving DecidableEq

/-- `UTILS_OT_get_nfts.execute`: the ledger NFT list is the `nft_list`
parameter.  The URL list is extracted, stored in the profile, counted for
the shown message, saved, and the profile is reloaded before FINISHED. -/
def UTILS_OT_get_nfts.execute (nft_list : List NftRecord) (s : Store) : NftsOutcome :=
  let nft_urls := get_urllist_from_list nft_list
  let s1 := { s with profile := { s.profile with nfts := nft_urls } }
  let test := transform_nft_urls_in_menu nft_urls
  let count := test.length
  let s2 := Store.save_json s1
  { store := Store.read_json s2,
    shownMessage := toString count ++ " NFTs loaded",
    okMessage := "You have loaded the NFTs",
    readJsonCalled := true, ret := RetCode.finished }

/-- `get_active_address`: the address of the active profile. -/
def get_active_address (p : Profile) : String := p.address

/-- `get_active_profile`: `none` when the stored address is empty (Python
falsy), otherwise the profile itself. -/
def get_active_profile (p : Profile) : Option Profile :=
  if p.address = "" then none else some p

/-- `is_logged_in`: whether the stored address differs from the empty
string. -/
def is_logged_in (p : Profile) : Bool := p.address != ""

/-!
Embedding of `token_expires` and the three `datetime.strptime` format
strings it tries.  Python's `_strptime` compiles each format into a
case-insensitive regex (so literal letters and month/day names match in any
case), turns each run of whitespace in the format into one-or-more
whitespace characters, and requires the whole input to be consumed.  Each
numeric directive is an ordered alternation of digit patterns; since every
directive in these three formats is followed by a non-digit literal,
first-match-per-field parsing is equivalent to the regex with backtracking.
After matching, the datetime constructor validates the field ranges (year
1..9999, day within the month, second at most 59 even though the pattern
admits leap seconds 60 and 61).  Whitespace is modelled as the ASCII class.
-/

/-- The result of a successful `datetime.datetime.strptime` call. -/
structure PyDateTime where
  year : Nat
  month : Nat
  day : Nat
  hour : Nat
  minute : Nat
  second : Nat
  microsecond : Nat
deriving DecidableEq

/-- ASCII whitespace, the characters Python's regex class matches here. -/
def pyIsSpace (c : Char) : Bool :=
  c = ' ' || c = '\t' || c = '\n' || c = '\r' || c = Char.ofNat 11 || c = Char.ofNat 12

/-- Case-insensitive character comparison (the compiled regex uses
IGNORECASE). -/
def charLowerEq (a b : Char) : Bool := a.toLower == b.toLower

/-- Match one literal character, case-insensitively. -/
def pLit (c : Char) : List Char → Option (List Char)
  | [] => none
  | x :: rest => if charLowerEq x c then some rest else none

/-- Match a sequence of literal characters, case-insensitively. -/
def pLits : List Char → List Char → Option (List Char)
  | [], input => some input
  | c :: cs, input =>
    match pLit c input with
    | some rest => pLits cs rest
    | none => none

/-- Drop leading whitespace. -/
def skipSpaces : List Char → List Char
  | [] => []
  | c :: rest => if pyIsSpace c then skipSpaces rest else c :: rest

/-- One-or-more whitespace characters (a whitespace run in the format). -/
def pSpace1 : List Char → Option (List Char)
  | [] => none
  | c :: rest => if pyIsSpace c then some (skipSpaces rest) else none

/-- The numeric value of a decimal digit character. -/
def digitVal (c : Char) : Option Nat :=
  if c.isDigit then some (c.toNat - 48) else none

/-- Directive Y: exactly four digits. -/
def pYear : List Char → Option (Nat × List Char)
  | a :: b :: c :: d :: rest => do
    let x ← digitVal a
    let y ← digitVal b
    let z ← digitVal c
    let w ← digitVal d
    pure (x * 1000 + y * 100 + z * 10 + w, rest)
  | _ => none

/-- Directive m: the alternation 1[0-2], 0[1-9], [1-9]. -/
def pMonthNum : List Char → Option (Nat × List Char)
  | [] => none
  | c1 :: rest1 =>
    match digitVal c1 with
    | none => none
    | some d1 =>
      match rest1 with
      | [] => if 1 ≤ d1 then some (d1, []) else none
      | c2 :: rest2 =>
        match digitVal c2 with
        | none => if 1 ≤ d1 then some (d1, rest1) else none
        | some d2 =>
          if d1 = 1 && d2 ≤ 2 then some (10 + d2, rest2)
          else if d1 = 0 && 1 ≤ d2 then some (d2, rest2)
          else if 1 ≤ d1 then some (d1, rest1)
          else none

/-- Directive d: the alternation 3[01], [12] digit, 0[1-9], [1-9]. -/
def pDayNum : List Char → Option (Nat × List Char)
  | [] => none
  | c1 :: rest1 =>
    match digitVal c1 with
    | none => none
    | some d1 =>
      match rest1 with
      | [] => if 1 ≤ d1 then some (d1, []) else none
      | c2 :: rest2 =>
        match digitVal c2 with
        | none => if 1 ≤ d1 then some (d1, rest1) else none
        | some d2 =>
          if d1 = 3 && d2 ≤ 1 then some (30 + d2, rest2)
          else if d1 = 1 || d1 = 2 then some (10 * d1 + d2, rest2)
          else if d1 = 0 && 1 ≤ d2 then some (d2, rest2)
          else if 1 ≤ d1 then some (d1, rest1)
          else none

/-- Directive H: the alternation 2[0-3], [0-1] digit, digit. -/
def pHourNum : List Char → Option (Nat × List Char)
  | [] => none
  | c1 :: rest1 =>
    match digitVal c1 with
    | none => none
    | some d1 =>
      match rest1 with
      | [] => some (d1, [])
      | c2 :: rest2 =>
        match digitVal c2 with
        | none => some (d1, rest1)
        | some d2 =>
          if d1 = 2 && d2 ≤ 3 then some (20 + d2, rest2)
          else if d1 ≤ 1 then some (10 * d1 + d2, rest2)
          else some (d1, rest1)

/-- Directive M: the alternation [0-5] digit, digit. -/
def pMinNum : List Char → Option (Nat × List Char)
  | [] => none
  | c1 :: rest1 =>
    match digitVal c1 with
    | none => none
    | some d1 =>
      match rest1 with
      | [] => some (d1, [])
      | c2 :: rest2 =>
        match digitVal c2 with
        | none => some (d1, rest1)
        | some d2 =>
          if d1 ≤ 5 then some (10 * d1 + d2, rest2)
          else some (d1, rest1)

/-- Directive S: the alternation 6[0-1], [0-5] digit, digit (the pattern
admits leap seconds; the datetime constructor rejects them afterwards). -/
def pSecNum : List Char → Option (Nat × List Char)
  | [] => none
  | c1 :: rest1 =>
    match digitVal c1 with
    | none => none
    | some d1 =>
      match rest1 with
      | [] => some (d1, [])
      | c2 :: rest2 =>
        match digitVal c2 with
        | none => some (d1, rest1)
        | some d2 =>
          if d1 = 6 && d2 ≤ 1 then some (60 + d2, rest2)
          else if d1 ≤ 5 then some (10 * d1 + d2, rest2)
          else some (d1, rest1)

/-- All leading digits of the input. -/
def takeDigits : List Char → List Nat × List Char
  | [] => ([], [])
  | c :: rest =>
    match digitVal c with
    | some d =>
      let p := takeDigits rest
      (d :: p.1, p.2)
    | none => ([], c :: rest)

/-- Directive f: one to six digits, converted to microseconds by
zero-padding on the right.  In this format the directive is followed by a
literal Z, so taking all leading digits and rejecting runs longer than six
is equivalent to the bounded greedy pattern. -/
def pFrac (input : List Char) : Option (Nat × List Char) :=
  let p := takeDigits input
  if p.1.length = 0 || 6 < p.1.length then none
  else
    let v := p.1.foldl (fun acc d => acc * 10 + d) 0
    some (v * 10 ^ (6 - p.1.length), p.2)

/-- First case-insensitive match among a list of named alternatives. -/
def pFirstAbbr : List (String × Nat) → List Char → Option (Nat × List Char)
  | [], _ => none
  | (nm, v) :: more, input =>
    match pLits nm.data input with
    | some rest => some (v, rest)
    | none => pFirstAbbr more input

/-- Directive a: C-locale abbreviated weekday names, case-insensitive.  The
parsed weekday is not used or cross-checked by the datetime constructor. -/
def pWeekday (input : List Char) : Option (Nat × List Char) :=
  pFirstAbbr [("Mon", 0), ("Tue", 1), ("Wed", 2), ("Thu", 3),
              ("Fri", 4), ("Sat", 5), ("Sun", 6)] input

/-- Directive b: C-locale abbreviated month names, case-insensitive. -/
def pMonthName (input : List Char) : Option (Nat × List Char) :=
  pFirstAbbr [("Jan", 1), ("Feb", 2), ("Mar", 3), ("Apr", 4),
              ("May", 5), ("Jun", 6), ("Jul", 7), ("Aug", 8),
              ("Sep", 9), ("Oct", 10), ("Nov", 11), ("Dec", 12)] input

/-- Gregorian leap-year rule. -/
def isLeapYear (y : Nat) : Bool := y % 4 = 0 && (y % 100 ≠ 0 || y % 400 = 0)

/-- Number of days in the given month. -/
def daysInMonth (y m : Nat) : Nat :=
  if m = 2 then (if isLeapYear y then 29 else 28)
  else if m = 4 || m = 6 || m = 9 || m = 11 then 30
  else 31

/-- The datetime constructor: validates the field ranges and rejects out of
range values (including leap seconds) with a ValueError, which the caller
treats as a parse failure. -/
def mkPyDateTime (y mo d h mi sec us : Nat) : Option PyDateTime :=
  if 1 ≤ y && y ≤ 9999 && 1 ≤ mo && mo ≤ 12 && 1 ≤ d && d ≤ daysInMonth y mo
      && h ≤ 23 && mi ≤ 59 && sec ≤ 59 && us ≤ 999999
  then some ⟨y, mo, d, h, mi, sec, us⟩ else none

/-- strptime with format `%Y-%m-%dT%H:%M:%SZ` (ISO 8601 with Z-suffix). -/
def parseFmtIsoZ (str : String) : Option PyDateTime := do
  let r0 := str.data
  let (y, r1) ← pYear r0
  let r2 ← pLit '-' r1
  let (mo, r3) ← pMonthNum r2
  let r4 ← pLit '-' r3
  let (d, r5) ← pDayNum r4
  let r6 ← pLit 'T' r5
  let (h, r7) ← pHourNum r6
  let r8 ← pLit ':' r7
  let (mi, r9) ← pMinNum r8
  let r10 ← pLit ':' r9
  let (sec, r11) ← pSecNum r10
  let r12 ← pLit 'Z' r11
  if r12 = [] then mkPyDateTime y mo d h mi sec 0 else none

/-- strptime with format `%Y-%m-%dT%H:%M:%S.%fZ` (ISO 8601 with fractional
seconds and Z-suffix). -/
def parseFmtIsoFracZ (str : String) : Option PyDateTime := do
  let r0 := str.data
  let (y, r1) ← pYear r0
  let r2 ← pLit '-' r1
  let (mo, r3) ← pMonthNum r2
  let r4 ← pLit '-' r3
  let (d, r5) ← pDayNum r4
  let r6 ← pLit 'T' r5
  let (h, r7) ← pHourNum r6
  let r8 ← pLit ':' r7
  let (mi, r9) ← pMinNum r8
  let r10 ← pLit ':' r9
  let (sec, r11) ← pSecNum r10
  let r12 ← pLit '.' r11
  let (us, r13) ← pFrac r12
  let r14 ← pLit 'Z' r13
  if r14 = [] then mkPyDateTime y mo d h mi sec us else none

/-- strptime with format `%a, %d %b %Y %H:%M:%S GMT` (RFC 1123). -/
def parseFmtRfc1123 (str : String) : Option PyDateTime := do
  let r0 := str.data
  let (_w, r1) ← pWeekday r0
  let r2 ← pLit ',' r1
  let r3 ← pSpace1 r2
  let (d, r4) ← pDayNum r3
  let r5 ← pSpace1 r4
  let (mo, r6) ← pMonthName r5
  let r7 ← pSpace1 r6
  let (y, r8) ← pYear r7
  let r9 ← pSpace1 r8
  let (h, r10) ← pHourNum r9
  let r11 ← pLit ':' r10
  let (mi, r12) ← pMinNum r11
  let r13 ← pLit ':' r12
  let (sec, r14) ← pSecNum r13
  let r15 ← pSpace1 r14
  let r16 ← pLits "GMT".data r15
  if r16 = [] then mkPyDateTime y mo d h mi sec 0 else none

/-- `token_expires`: `none` when the stored expiry string is empty (Python
falsy); otherwise the three formats are tried in order inside a
try/except-ValueError loop, the first successful parse is returned, and
`none` is returned when none of them matches. -/
def token_expires (expires : String) : Option PyDateTime :=
  if expires = "" then none
  else
    match parseFmtIsoZ expires with
    | some dt => some dt
    | none =>
      match parseFmtIsoFracZ expires with
      | some dt => some dt
      | none => parseFmtRfc1123 expires

/-!  Concrete fixtures used by counterexamples and witnesses. -/

/-- A rejected authentication result. -/
def failAuth : AuthResult :=
  { success := false, token := "", expires := "",
    error_message := "identity service rejected the key" }

/-- A successful authentication result. -/
def okAuth : AuthResult :=
  { success := true, token := "tok123", expires := "2099-01-01T00:00:00Z",
    error_message := "" }

/-- A profile left over from a previous session. -/
def staleProfile : Profile :=
  { address := "erd1stale", apiKey := "oldkey", token := "oldtok",
    expires := "2023-01-02T03:04:05Z", nonce := NonceVal.intVal 7, nfts := [] }

/-- A store holding the stale profile in memory and on disk. -/
def staleStore : Store := { profile := staleProfile, file := staleProfile }

/-- A store holding the all-empty profile in memory and on disk. -/
def emptyStore : Store := { profile := emptyProfile, file := emptyProfile }

/-!  Theorems settling the claims. -/

/-- C1 counterexample: a login attempt that fails while a stored session
address is present does NOT force a server-side logout — the failure branch
of `LockiIdLogin.execute` only calls `profiles.logout` (the local clear) and
never `communication.locki_id_server_logout`. -/
theorem C1_counterexample :
    failAuth.success = false ∧ staleStore.profile.address ≠ "" ∧
    (LockiIdLogin.execute failAuth "erd1new" "newkey" staleStore).serverLogoutCalled
      = false := by
  refine ⟨rfl, by decide, rfl⟩

/-- C1 (amended): for every login attempt that fails while a stored session
address is present, the operator forces a local logout — the profile is
cleared in memory and on disk, leaving the session logged out
(address = "") — but performs no server-side logout call. -/
theorem C1_login_failure_local_logout (auth : AuthResult) (addr key : String)
    (s : Store) (hfail : auth.success = false) (hstale : s.profile.address ≠ "") :
    (LockiIdLogin.execute auth addr key s).store.profile.address = "" ∧
    (LockiIdLogin.execute auth addr key s).store.file.address = "" ∧
    (LockiIdLogin.execute auth addr key s).localLogoutCalled = true ∧
    (LockiIdLogin.execute auth addr key s).serverLogoutCalled = false := by
  simp [LockiIdLogin.execute, hfail, hstale, profiles.logout, Store.save_json,
    Store.read_json, emptyProfile]

/-- C1 witness: the amended theorem applied to a failed login over the stale
store. -/
theorem C1_witness :
    (LockiIdLogin.execute failAuth "erd1new" "newkey" staleStore).store.profile.address = "" ∧
    (LockiIdLogin.execute failAuth "erd1new" "newkey" staleStore).store.file.address = "" ∧
    (LockiIdLogin.execute failAuth "erd1new" "newkey" staleStore).localLogoutCalled = true ∧
    (LockiIdLogin.execute failAuth "erd1new" "newkey" staleStore).serverLogoutCalled = false :=
  C1_login_failure_local_logout failAuth "erd1new" "newkey" staleStore rfl (by decide)

/-- C2: contrary to the claim, when the ledger nonce lookup returns a falsy
failure result the refresh-nonce operator raises — the subscript
result["nonce"] in the show_message call sits outside the `if result:`
guard — instead of surfacing a message; the session state is left unchanged
only because the exception aborts the method. -/
theorem C2_nonce_failure_raises (s : Store) :
    (UTILS_OT_get_nonce.execute none s).raised =
      some "TypeError: NoneType object is not subscriptable" ∧
    (UTILS_OT_get_nonce.execute none s).ret = none ∧
    (UTILS_OT_get_nonce.execute none s).store = s :=
  ⟨rfl, rfl, rfl⟩

/-- C3: `token_expires` tries the three formats in order — ISO-8601-with-Z,
ISO-8601-with-fractional-seconds-and-Z, then RFC-1123 — returns the result
of the first format that parses, and returns `none` rather than raising when
the input is empty or matches none of the three formats. -/
theorem C3_token_expires_three_formats :
    (∀ s dt, s ≠ "" → parseFmtIsoZ s = some dt → token_expires s = some dt) ∧
    (∀ s dt, s ≠ "" → parseFmtIsoZ s = none → parseFmtIsoFracZ s = some dt →
      token_expires s = some dt) ∧
    (∀ s dt, s ≠ "" → parseFmtIsoZ s = none → parseFmtIsoFracZ s = none →
      parseFmtRfc1123 s = some dt → token_expires s = some dt) ∧
    (∀ s, parseFmtIsoZ s = none → parseFmtIsoFracZ s = none →
      parseFmtRfc1123 s = none → token_expires s = none) ∧
    token_expires "" = none := by
  refine ⟨?_, ?_, ?_, ?_, rfl⟩
  · intro s dt hne h1
    simp [token_expires, hne, h1]
  · intro s dt hne h1 h2
    simp [token_expires, hne, h1, h2]
  · intro s dt hne h1 h2 h3
    simp [token_expires, hne, h1, h2, h3]
  · intro s h1 h2 h3
    by_cases hs : s = ""
    · simp [token_expires, hs]
    · simp [token_expires, hs, h1, h2, h3]

/-- C3 witness: the theorem applied to one concrete string per format and to
strings matching no format. -/
theorem C3_witness :
    token_expires "2023-01-02T03:04:05Z" = some ⟨2023, 1, 2, 3, 4, 5, 0⟩ ∧
    token_expires "2023-01-02T03:04:05.25Z" = some ⟨2023, 1, 2, 3, 4, 5, 250000⟩ ∧
    token_expires "Mon, 02 Jan 2023 03:04:05 GMT" = some ⟨2023, 1, 2, 3, 4, 5, 0⟩ ∧
    token_expires "not-a-date" = none :=
  ⟨C3_token_expires_three_formats.1 "2023-01-02T03:04:05Z" ⟨2023, 1, 2, 3, 4, 5, 0⟩
      (by decide) (by decide),
   C3_token_expires_three_formats.2.1 "2023-01-02T03:04:05.25Z"
      ⟨2023, 1, 2, 3, 4, 5, 250000⟩ (by decide) (by decide) (by decide),
   C3_token_expires_three_formats.2.2.1 "Mon, 02 Jan 2023 03:04:05 GMT"
      ⟨2023, 1, 2, 3, 4, 5, 0⟩ (by decide) (by decide) (by decide) (by decide),
   C3_token_expires_three_formats.2.2.2.1 "not-a-date"
      (by decide) (by decide) (by decide)⟩

/-- C4: `validate_token` returns the error message and leaves the whole
session (in-memory profile and persisted file) unchanged on server failure;
on success it returns `none`, updates only the `expires` field of the
profile, and persists that profile. -/
theorem C4_validate_token_spec (exp e : String) (s : Store) :
    validate_token { expires := exp, err := some e } s = (some e, s) ∧
    (validate_token { expires := exp, err := none } s).1 = none ∧
    (validate_token { expires := exp, err := none } s).2.profile =
      { s.profile with expires := exp } ∧
    (validate_token { expires := exp, err := none } s).2.file =
      { s.profile with expires := exp } :=
  ⟨rfl, rfl, rfl, rfl⟩

/-- C5: the logout operator clears the session locally and on disk and
returns FINISHED whatever the outcome of the server-side invalidation call
was — a server failure never blocks the local logout. -/
theorem C5_logout_always_clears (serverOk : Bool) (s : Store) :
    (LockiIdLogout.execute serverOk s).store.profile.address = "" ∧
    (LockiIdLogout.execute serverOk s).store.file.address = "" ∧
    (LockiIdLogout.execute serverOk s).serverLogoutCalled = true ∧
    (LockiIdLogout.execute serverOk s).ret = RetCode.finished :=
  ⟨rfl, rfl, rfl, rfl⟩

/-- C6 counterexample: a successful login stores the string "0" — not an
integer — in the session's nonce field, because `LockiIdLogin.execute`
passes the string literal "0" to `profiles.save_as_active_profile`. -/
theorem C6_counterexample :
    (LockiIdLogin.execute okAuth "erd1addr" "key1" emptyStore).store.profile.nonce =
      NonceVal.strVal "0" ∧
    NonceVal.isNonnegInt (NonceVal.strVal "0") = false :=
  ⟨rfl, rfl⟩

/-- C6 (amended): the refresh-nonce operator stores the ledger's
non-negative integer in the session's nonce field, but a successful login
initialises that field with the string "0" rather than an integer. -/
theorem C6_nonce_written_values (n : Nat) (s t : Store) (auth : AuthResult)
    (addr key : String) (hsucc : auth.success = true) :
    (UTILS_OT_get_nonce.execute (some n) s).store.profile.nonce = NonceVal.intVal n ∧
    NonceVal.isNonnegInt (NonceVal.intVal n) = true ∧
    (LockiIdLogin.execute auth addr key t).store.profile.nonce = NonceVal.strVal "0" := by
  refine ⟨rfl, rfl, ?_⟩
  simp [LockiIdLogin.execute, hsucc, profiles.save_as_active_profile,
    Store.save_json, Store.read_json]

/-- C6 witness: the amended theorem applied to a concrete ledger nonce and a
successful login. -/
theorem C6_witness :
    (UTILS_OT_get_nonce.execute (some 42) emptyStore).store.profile.nonce =
      NonceVal.intVal 42 ∧
    NonceVal.isNonnegInt (NonceVal.intVal 42) = true ∧
    (LockiIdLogin.execute okAuth "erd1addr" "key1" emptyStore).store.profile.nonce =
      NonceVal.strVal "0" :=
  C6_nonce_written_values 42 emptyStore emptyStore okAuth "erd1addr" "key1" rfl

/-- C7: login, validate, logout and refresh-NFTs reload the profile via
`read_json` on every path, and refresh-nonce reloads it on its success
path; but on the refresh-nonce failure path the raised TypeError aborts the
method before `read_json` is reached, so contrary to the claim not every
operator reloads the session on its failure path. -/
theorem C7_read_json_on_paths (auth : AuthResult) (addr key : String)
    (vres : ValidateResult) (serverOk : Bool) (nl : List NftRecord) (n : Nat)
    (s1 s2 s3 s4 s5 : Store) :
    (LockiIdLogin.execute auth addr key s1).readJsonCalled = true ∧
    (LockiIdValidate.execute vres s2).readJsonCalled = true ∧
    (LockiIdLogout.execute serverOk s3).readJsonCalled = true ∧
    (UTILS_OT_get_nfts.execute nl s4).readJsonCalled = true ∧
    (UTILS_OT_get_nonce.execute (some n) s5).readJsonCalled = true ∧
    (UTILS_OT_get_nonce.execute none emptyStore).readJsonCalled = false := by
  refine ⟨?_, ?_, rfl, rfl, rfl, rfl⟩
  · by_cases h : auth.success = true <;> simp [LockiIdLogin.execute, h]
  · rcases vres with ⟨exp, err⟩
    cases err <;> rfl

/-- C8: the empty address is the canonical logged-out state and the public
accessors agree on it: `is_logged_in` is true exactly when the address is
non-empty, and `get_active_profile` is `none` exactly when the address is
empty. -/
theorem C8_accessors_agree (p : Profile) :
    (is_logged_in p = true ↔ p.address ≠ "") ∧
    (get_active_profile p = none ↔ p.address = "") := by
  constructor
  · simp [is_logged_in]
  · by_cases h : p.address = "" <;> simp [get_active_profile, h]

/-- C9: the refresh-NFTs operator on an account with zero holdings stores
the empty list, shows a "0 NFTs loaded" message, sets the success message
and returns FINISHED — the empty result is not an error. -/
theorem C9_refresh_nfts_empty (s : Store) :
    (UTILS_OT_get_nfts.execute [] s).store.profile.nfts = [] ∧
    (UTILS_OT_get_nfts.execute [] s).store.file.nfts = [] ∧
    (UTILS_OT_get_nfts.execute [] s).shownMessage = "0 NFTs loaded" ∧
    (UTILS_OT_get_nfts.execute [] s).okMessage = "You have loaded the NFTs" ∧
    (UTILS_OT_get_nfts.execute [] s).ret = RetCode.finished := by
  refine ⟨rfl, rfl, ?_, rfl, rfl⟩
  rfl

/-- C10: the login, validate and logout operators return FINISHED to the
host runtime on every branch, success or failure. -/
theorem C10_operators_return_finished (auth : AuthResult) (addr key : String)
    (vres : ValidateResult) (serverOk : Bool) (s1 s2 s3 : Store) :
    (LockiIdLogin.execute auth addr key s1).ret = RetCode.finished ∧
    (LockiIdValidate.execute vres s2).ret = RetCode.finished ∧
    (LockiIdLogout.execute serverOk s3).ret = RetCode.finished := by
  refine ⟨?_, ?_, rfl⟩
  · by_cases h : auth.success = true <;> simp [LockiIdLogin.execute, h]
  · rcases vres with ⟨exp, err⟩
    cases err <;> rfl
